import Mathlib

/-!
Shallow embedding of the K3nguruh/layout responsive-navigation widget.

The repository holds two variants of the same jQuery widget:
* `src/assets/layout.js` (version 1.0.1) — embedded below in namespace `Layout`;
* `src/unnamed/part_000` (version 1.0.0) — embedded in namespace `Part0`.

DOM elements are modelled by their widget-relevant observable state: the list
of CSS classes, the inline-style map, and the jQuery fx queue of the element.
jQuery semantics mirrored here:
* `addClass` adds a class only when absent; `removeClass` removes it;
  `toggleClass c b` adds or removes according to `b`;
* `.css(prop, v)` with a nonempty string sets the inline style, with the empty
  string it REMOVES the inline style (jQuery: setting a style property to the
  empty string removes it); numeric values for `left`/`width` get a `px` suffix;
* `.show()` / `.hide()` / `.toggle(b)` clear the inline `display` style or set
  it to `none`;
* `.animate` / `.fadeIn` / `.fadeOut` are modelled by their completed effect on
  the inline style (the value every run of the animation ends at, independent
  of duration and easing), recorded eagerly, while the animation entry itself
  is appended to the element's fx queue; `.stop()` (no arguments) stops the
  currently running animation, i.e. drops the head of the fx queue.
An element is considered visible when its inline `display` style is not
`none` (absence of an inline style defers to the stylesheet).
-/

/-- jQuery's conversion of a numeric CSS value to a string: append `px`. -/
def px (n : Int) : String := toString n ++ "px"

/-- An entry of an element's jQuery fx queue, as issued by this widget. -/
inductive Anim where
  | animateLeft (target : Int) (duration : Nat) (easing : String)
  | fadeIn (duration : Nat) (easing : String)
  | fadeOut (duration : Nat) (easing : String)
deriving Repr, DecidableEq

/-- Look up an inline style in the style map. -/
def getStyle : List (String × String) → String → Option String
  | [], _ => none
  | (k', v) :: rest, k => if k' = k then some v else getStyle rest k

/-- Remove an inline style from the style map. -/
def eraseStyle : List (String × String) → String → List (String × String)
  | [], _ => []
  | (k', v) :: rest, k =>
      if k' = k then eraseStyle rest k else (k', v) :: eraseStyle rest k

/-- Set an inline style in the style map (overwriting an existing entry). -/
def putStyle : List (String × String) → String → String → List (String × String)
  | [], k, v => [(k, v)]
  | (k', v') :: rest, k, v =>
      if k' = k then (k, v) :: rest else (k', v') :: putStyle rest k v

/-- jQuery `.css(k, v)` on a style map: the empty string removes the style. -/
def setStyle (l : List (String × String)) (k v : String) :
    List (String × String) :=
  if v = "" then eraseStyle l k else putStyle l k v

/-- Observable state of a bound DOM element. -/
structure Elem where
  classes : List String := []
  css : List (String × String) := []
  fx : List Anim := []
deriving Repr, DecidableEq

namespace Elem

/-- jQuery `addClass`: add the class when it is not already present. -/
def addClass (e : Elem) (c : String) : Elem :=
  if c ∈ e.classes then e else { e with classes := e.classes ++ [c] }

/-- jQuery `removeClass`. -/
def removeClass (e : Elem) (c : String) : Elem :=
  { e with classes := e.classes.filter (fun x => decide (x ≠ c)) }

/-- jQuery `toggleClass c b`: add when `b`, remove otherwise. -/
def toggleClass (e : Elem) (c : String) (b : Bool) : Elem :=
  if b then e.addClass c else e.removeClass c

/-- Is the class present on the element? -/
def hasClass (e : Elem) (c : String) : Bool := decide (c ∈ e.classes)

/-- jQuery `.css(k, v)` on the element. -/
def setCss (e : Elem) (k v : String) : Elem :=
  { e with css := setStyle e.css k v }

/-- Read an inline style of the element. -/
def getCss (e : Elem) (k : String) : Option String := getStyle e.css k

/-- jQuery `.stop()` with no arguments: drop the running fx-queue head. -/
def stop (e : Elem) : Elem := { e with fx := e.fx.tail }

/-- The completed effect of an animation on the inline styles. -/
def animEffect : Anim → List (String × String) → List (String × String)
  | .animateLeft t _ _, css => setStyle css "left" (px t)
  | .fadeIn _ _, css => setStyle css "display" ""
  | .fadeOut _ _, css => setStyle css "display" "none"

/-- Issue an animation: enqueue it and record its completed effect. -/
def animate (e : Elem) (a : Anim) : Elem :=
  { e with css := animEffect a e.css, fx := e.fx ++ [a] }

/-- jQuery `.show()` (renamed: `show` is a Lean keyword): clear the inline
`display` style. -/
def showEl (e : Elem) : Elem := e.setCss "display" ""

/-- jQuery `.hide()`: set the inline `display` style to `none`. -/
def hide (e : Elem) : Elem := e.setCss "display" "none"

/-- jQuery `.toggle(b)`: show when `b`, hide otherwise. -/
def toggle (e : Elem) (b : Bool) : Elem := if b then e.showEl else e.hide

/-- The element is not hidden by an inline `display: none`. -/
def visible (e : Elem) : Bool := decide (e.getCss "display" ≠ some "none")

end Elem

/-- JavaScript truthiness of a possibly-`undefined` boolean field. -/
def truthy : Option Bool → Bool
  | some b => b
  | none => false

namespace Layout

/-- The `classes` option of `src/assets/layout.js`. -/
structure Classes where
  desktop : String
  mobile : String
  sidebar : String
  active : String
deriving Repr, DecidableEq

/-- The options of `src/assets/layout.js` (element selectors are resolved to
the bound elements of the `Widget` record and carry no further content). -/
structure Options where
  sidebar : Bool
  breakpoint : Nat
  width : Int
  duration : Nat
  easing : String
  classes : Classes
deriving Repr, DecidableEq

/-- The documented defaults of `src/assets/layout.js`. -/
def defaultOptions : Options :=
  { sidebar := false
    breakpoint := 1200
    width := 300
    duration := 300
    easing := "linear"
    classes :=
      { desktop := "layout-desktop"
        mobile := "layout-mobile"
        sidebar := "layout-sidebar"
        active := "active" } }

/-- Instance state of the widget of `src/assets/layout.js`: the options, the
two JS instance fields `isShown` and `isMobile` (both `undefined` until first
assigned, hence `Option Bool`), the stored `resizeAnimationFrame` handle, the
four bound elements, and whether the `_on` event bindings of `_initEvents`
are currently attached. -/
structure Widget where
  opts : Options
  isShown : Option Bool := none
  isMobile : Option Bool := none
  resizeAF : Option Nat := none
  layout : Elem := {}
  navbtn : Elem := {}
  navbar : Elem := {}
  overlay : Elem := {}
  bound : Bool := false
deriving Repr, DecidableEq

/-- `_open` of `src/assets/layout.js`. -/
def _open (s : Widget) : Widget :=
  { s with
    isShown := some true
    navbtn := s.navbtn.addClass s.opts.classes.active
    navbar := s.navbar.stop.animate
      (.animateLeft 0 s.opts.duration s.opts.easing)
    overlay := s.overlay.stop.animate
      (.fadeIn s.opts.duration s.opts.easing) }

/-- `_close` of `src/assets/layout.js`. -/
def _close (s : Widget) : Widget :=
  { s with
    isShown := some false
    navbtn := s.navbtn.removeClass s.opts.classes.active
    navbar := s.navbar.stop.animate
      (.animateLeft (-s.opts.width) s.opts.duration s.opts.easing)
    overlay := s.overlay.stop.animate
      (.fadeOut s.opts.duration s.opts.easing) }

/-- `_onToggle` of `src/assets/layout.js`: dispatch on the truthiness of the
`isShown` field (which is `undefined` before the first open). -/
def _onToggle (s : Widget) : Widget :=
  if truthy s.isShown then _close s else _open s

/-- `_applyMobile` of `src/assets/layout.js`. -/
def _applyMobile (s : Widget) : Widget :=
  { s with
    layout := ((s.layout.addClass s.opts.classes.mobile).removeClass
      s.opts.classes.desktop).removeClass s.opts.classes.sidebar
    navbtn := s.navbtn.setCss "display" ""
    navbar := ((((s.navbar.setCss "position" "absolute").setCss
      "z-index" "1045").setCss "inset" "0").setCss "left"
      (if truthy s.isShown then "0" else px (-s.opts.width))).setCss
      "width" (px s.opts.width)
    overlay := (((s.overlay.setCss "position" "absolute").setCss
      "z-index" "1040").setCss "inset" "0").setCss "display"
      (if truthy s.isShown then "" else "none") }

/-- `_applyDesktop` of `src/assets/layout.js`. -/
def _applyDesktop (s : Widget) : Widget :=
  { s with
    layout := ((s.layout.addClass s.opts.classes.desktop).removeClass
      s.opts.classes.mobile).removeClass s.opts.classes.sidebar
    navbtn := s.navbtn.setCss "display" "none"
    navbar := (((s.navbar.setCss "position" "").setCss "z-index" "").setCss
      "inset" "").setCss "width" ""
    overlay := (((s.overlay.setCss "position" "").setCss "z-index" "").setCss
      "inset" "").setCss "display" "none" }

/-- `_applySidebar` of `src/assets/layout.js`. -/
def _applySidebar (s : Widget) : Widget :=
  { s with
    layout := ((s.layout.addClass s.opts.classes.sidebar).removeClass
      s.opts.classes.desktop).removeClass s.opts.classes.mobile
    navbtn := s.navbtn.setCss "display" "none"
    navbar := (((s.navbar.setCss "position" "").setCss "z-index" "").setCss
      "inset" "").setCss "width" (px s.opts.width)
    overlay := (((s.overlay.setCss "position" "").setCss "z-index" "").setCss
      "inset" "").setCss "display" "none" }

/-- The dispatch line of `_resize`:
`this[isMobile ? "_applyMobile" : isSidebar ? "_applySidebar" : "_applyDesktop"]()`. -/
def applyMode (m : Bool) (s : Widget) : Widget :=
  if m then _applyMobile s
  else if s.opts.sidebar then _applySidebar s
  else _applyDesktop s

/-- `_resize` of `src/assets/layout.js`; the current `$(window).width()` is
the parameter `w`. The JS guard `this.isMobile !== isMobile` is an untyped
strict comparison, so the initial `undefined` differs from both booleans. -/
def _resize (w : Nat) (s : Widget) : Widget :=
  let isMobile := decide (w < s.opts.breakpoint)
  if s.isMobile = some isMobile then s
  else applyMode isMobile { s with isMobile := some isMobile }

/-- Public `open` of `src/assets/layout.js` (renamed: `open` is a Lean
keyword): guarded by `this.isMobile && !this.isShown`. -/
def openNav (s : Widget) : Widget :=
  if truthy s.isMobile && !truthy s.isShown then _open s else s

/-- Public `close` of `src/assets/layout.js`: guarded by
`this.isMobile && this.isShown`. -/
def close (s : Widget) : Widget :=
  if truthy s.isMobile && truthy s.isShown then _close s else s

/-- Public `destroy` of `src/assets/layout.js`. It removes the presentation
classes and clears the inline styles listed in its body — and nothing else.
In particular it never touches the inline `left` style, and it overrides the
widget-factory `destroy` without invoking the base teardown, so the `_on`
bindings installed by `_initEvents` stay attached (`bound` is unchanged). -/
def destroy (s : Widget) : Widget :=
  { s with
    layout := ((s.layout.removeClass s.opts.classes.desktop).removeClass
      s.opts.classes.mobile).removeClass s.opts.classes.sidebar
    navbtn := (s.navbtn.removeClass s.opts.classes.active).setCss
      "display" ""
    navbar := (((s.navbar.setCss "position" "").setCss "z-index" "").setCss
      "inset" "").setCss "width" ""
    overlay := (((s.overlay.setCss "position" "").setCss "z-index" "").setCss
      "inset" "").setCss "display" "" }

/-- `_create` before any event: resolved options, pristine elements,
both state fields `undefined`. -/
def fresh (o : Options) : Widget := { opts := o }

/-- `_initEvents` of `src/assets/layout.js`: attach the three `_on`
bindings, then run the initial `_resize()` at the current viewport width. -/
def _initEvents (w : Nat) (s : Widget) : Widget :=
  _resize w { s with bound := true }

/-- Widget creation at viewport width `w`: `_create` followed by
`_initEvents` (which performs the unconditional first layout pass). -/
def createAt (o : Options) (w : Nat) : Widget := _initEvents w (fresh o)

/-- The widget together with the browser's animation-frame scheduler, for the
debounce of `_onResize`. `pendingFrame` is the id of the scheduled
`requestAnimationFrame` callback (the callback is always `() => this._resize()`),
`nextId` the next handle the browser will hand out (handles are positive, so a
stored `some` handle is always JS-truthy), and `resizeRuns` counts how many
times `_resize` has actually run. -/
structure Sys where
  widget : Widget
  nextId : Nat := 1
  pendingFrame : Option Nat := none
  resizeRuns : Nat := 0
deriving Repr, DecidableEq

/-- `_onResize` of `src/assets/layout.js`:
`if (this.resizeAnimationFrame) cancelAnimationFrame(this.resizeAnimationFrame);`
then `this.resizeAnimationFrame = requestAnimationFrame(() => this._resize())`.
`cancelAnimationFrame` on an already-fired handle is a no-op. -/
def onResizeEv (sys : Sys) : Sys :=
  let sys1 :=
    match sys.widget.resizeAF with
    | some fid =>
        { sys with
          pendingFrame :=
            if sys.pendingFrame = some fid then none else sys.pendingFrame }
    | none => sys
  let fid := sys1.nextId
  { sys1 with
    widget := { sys1.widget with resizeAF := some fid }
    pendingFrame := some fid
    nextId := fid + 1 }

/-- The next animation-frame boundary: the browser fires the pending callback
(if any), which runs `_resize` at the current viewport width `w`. -/
def fireFrame (w : Nat) (sys : Sys) : Sys :=
  match sys.pendingFrame with
  | some _ =>
      { sys with
        pendingFrame := none
        widget := _resize w sys.widget
        resizeRuns := sys.resizeRuns + 1 }
  | none => sys

/-- A burst of `n` resize notifications, all arriving before the next
animation-frame boundary. -/
def burst : Nat → Sys → Sys
  | 0, sys => sys
  | n + 1, sys => onResizeEv (burst n sys)

/-- States of the widget reachable through its event surface: creation at
some viewport width, debounced resizes, clicks on the toggle button or the
overlay (a click is only deliverable by user interaction while the element is
not hidden by `display: none`), and the public `open`/`close` calls.
`destroy` ends the lifecycle and is not a step. -/
inductive Reach : Widget → Prop where
  | init (o : Options) (w : Nat) : Reach (createAt o w)
  | resize (w : Nat) {s : Widget} : Reach s → Reach (_resize w s)
  | clickNavbtn {s : Widget} : Reach s → s.navbtn.visible = true →
      Reach (_onToggle s)
  | clickOverlay {s : Widget} : Reach s → s.overlay.visible = true →
      Reach (_onToggle s)
  | openPub {s : Widget} : Reach s → Reach (openNav s)
  | closePub {s : Widget} : Reach s → Reach (close s)

end Layout

namespace Part0

/-- The `classes` option of `src/unnamed/part_000`. -/
structure Classes where
  layoutDesktop : String
  layoutMobile : String
  layoutSidebar : String
  navbtnActive : String
deriving Repr, DecidableEq

/-- The options of `src/unnamed/part_000` (note: no `width` option; the panel
width used by this variant is measured from the element at creation). -/
structure Options where
  breakpoint : Nat
  sidebar : Bool
  duration : Nat
  easing : String
  classes : Classes
deriving Repr, DecidableEq

/-- The documented defaults of `src/unnamed/part_000`. -/
def defaultOptions : Options :=
  { breakpoint := 1200
    sidebar := false
    duration := 300
    easing := "linear"
    classes :=
      { layoutDesktop := "layout-desktop"
        layoutMobile := "layout-mobile"
        layoutSidebar := "layout-sidebar"
        navbtnActive := "active" } }

/-- Instance state of the widget of `src/unnamed/part_000`. `navbarOpen` is
initialised to `false` by `_initWidget`; `navbarWidth` is the measured
`outerWidth()` of the navbar; `isMobile` starts `undefined`. -/
structure Widget where
  opts : Options
  navbarOpen : Bool := false
  navbarWidth : Int := 0
  isMobile : Option Bool := none
  resizeAF : Option Nat := none
  wrapper : Elem := {}
  navbtn : Elem := {}
  navbar : Elem := {}
  overlay : Elem := {}
deriving Repr, DecidableEq

/-- `_openNavbar` of `src/unnamed/part_000`. -/
def _openNavbar (s : Widget) : Widget :=
  { s with
    navbarOpen := true
    navbtn := s.navbtn.addClass s.opts.classes.navbtnActive
    navbar := s.navbar.stop.animate
      (.animateLeft 0 s.opts.duration s.opts.easing)
    overlay := s.overlay.stop.animate
      (.fadeIn s.opts.duration s.opts.easing) }

/-- `_closeNavbar` of `src/unnamed/part_000`: animates to minus the measured
`navbarWidth`. -/
def _closeNavbar (s : Widget) : Widget :=
  { s with
    navbarOpen := false
    navbtn := s.navbtn.removeClass s.opts.classes.navbtnActive
    navbar := s.navbar.stop.animate
      (.animateLeft (-s.navbarWidth) s.opts.duration s.opts.easing)
    overlay := s.overlay.stop.animate
      (.fadeOut s.opts.duration s.opts.easing) }

/-- `_onToggle` of `src/unnamed/part_000`. -/
def _onToggle (s : Widget) : Widget :=
  if s.navbarOpen then _closeNavbar s else _openNavbar s

/-- `_applyMobileLayout` of `src/unnamed/part_000`. The sidebar class is
toggled according to the option, IN ADDITION to setting the mobile class. -/
def _applyMobileLayout (s : Widget) : Widget :=
  { s with
    navbtn := s.navbtn.showEl
    wrapper := ((s.wrapper.addClass s.opts.classes.layoutMobile).removeClass
      s.opts.classes.layoutDesktop).toggleClass s.opts.classes.layoutSidebar
      s.opts.sidebar
    navbar := ((s.navbar.setCss "position" "absolute").setCss "left"
      (if s.navbarOpen then "" else px (-s.navbarWidth))).setCss "width" ""
    overlay := s.overlay.toggle s.navbarOpen }

/-- `_applyDesktopLayout` of `src/unnamed/part_000`. The sidebar class is
toggled according to the option, IN ADDITION to setting the desktop class. -/
def _applyDesktopLayout (s : Widget) : Widget :=
  { s with
    navbtn := s.navbtn.hide
    wrapper := ((s.wrapper.addClass s.opts.classes.layoutDesktop).removeClass
      s.opts.classes.layoutMobile).toggleClass s.opts.classes.layoutSidebar
      s.opts.sidebar
    navbar := ((s.navbar.setCss "position" "").setCss "left" "").setCss
      "width" (if s.opts.sidebar then "" else "100%")
    overlay := s.overlay.hide }

/-- `_resizeLayout` of `src/unnamed/part_000`; `w` is the current
`$(window).width()`. -/
def _resizeLayout (w : Nat) (s : Widget) : Widget :=
  let isMobile := decide (w < s.opts.breakpoint)
  if s.isMobile = some isMobile then s
  else
    let s1 := { s with isMobile := some isMobile }
    if isMobile then _applyMobileLayout s1 else _applyDesktopLayout s1

/-- `_initWidget` of `src/unnamed/part_000`: set `navbarOpen := false`, store
the measured navbar width `nw`, and run the first `_resizeLayout`. -/
def _initWidget (nw : Int) (w : Nat) (s : Widget) : Widget :=
  _resizeLayout w { s with navbarOpen := false, navbarWidth := nw }

/-- Widget creation of `src/unnamed/part_000` at viewport width `w` with
measured navbar width `nw` (`_create` runs `_initWidget` then `_initEvents`,
which only binds handlers). -/
def createAt (o : Options) (nw : Int) (w : Nat) : Widget :=
  _initWidget nw w { opts := o }

end Part0

/-- Count a boolean as 0 or 1. -/
def oneHot (b : Bool) : Nat := if b then 1 else 0

/-- How many of three given classes are present on an element. -/
def classCount3 (e : Elem) (a b c : String) : Nat :=
  oneHot (e.hasClass a) + oneHot (e.hasClass b) + oneHot (e.hasClass c)

/-- How many of two given classes are present on an element. -/
def classCount2 (e : Elem) (a b : String) : Nat :=
  oneHot (e.hasClass a) + oneHot (e.hasClass b)

/-! Basic lemmas about the style-map and class-list primitives. -/

theorem getStyle_eraseStyle_self (l : List (String × String)) (k : String) :
    getStyle (eraseStyle l k) k = none := by
  induction l with
  | nil => rfl
  | cons p rest ih =>
    obtain ⟨k', v⟩ := p
    by_cases h : k' = k <;> simp [eraseStyle, getStyle, h, ih]

theorem getStyle_eraseStyle_ne (l : List (String × String)) (k k' : String)
    (h : k' ≠ k) : getStyle (eraseStyle l k) k' = getStyle l k' := by
  have h' : ¬k = k' := fun hc => h hc.symm
  induction l with
  | nil => rfl
  | cons p rest ih =>
    obtain ⟨k₁, v⟩ := p
    by_cases h1 : k₁ = k
    · subst h1; simp [eraseStyle, getStyle, h', ih]
    · simp [eraseStyle, getStyle, h1, ih]

theorem getStyle_putStyle_self (l : List (String × String)) (k v : String) :
    getStyle (putStyle l k v) k = some v := by
  induction l with
  | nil => simp [putStyle, getStyle]
  | cons p rest ih =>
    obtain ⟨k₁, v₁⟩ := p
    by_cases h : k₁ = k <;> simp [putStyle, getStyle, h, ih]

theorem getStyle_putStyle_ne (l : List (String × String)) (k v k' : String)
    (h : k' ≠ k) : getStyle (putStyle l k v) k' = getStyle l k' := by
  have h' : ¬k = k' := fun hc => h hc.symm
  induction l with
  | nil => simp [putStyle, getStyle, h']
  | cons p rest ih =>
    obtain ⟨k₁, v₁⟩ := p
    by_cases h1 : k₁ = k
    · subst h1; simp [putStyle, getStyle, h']
    · simp [putStyle, getStyle, h1, ih]

theorem getCss_setCss_self (e : Elem) (k v : String) :
    (e.setCss k v).getCss k = if v = "" then none else some v := by
  by_cases h : v = "" <;>
    simp [Elem.setCss, Elem.getCss, setStyle, h, getStyle_eraseStyle_self,
      getStyle_putStyle_self]

theorem getCss_setCss_ne (e : Elem) (k v k' : String) (h : k' ≠ k) :
    (e.setCss k v).getCss k' = e.getCss k' := by
  by_cases hv : v = "" <;>
    simp [Elem.setCss, Elem.getCss, setStyle, hv,
      getStyle_eraseStyle_ne _ _ _ h, getStyle_putStyle_ne _ _ _ _ h]

theorem hasClass_addClass_self (e : Elem) (c : String) :
    (e.addClass c).hasClass c = true := by
  by_cases h : c ∈ e.classes <;> simp [Elem.addClass, Elem.hasClass, h]

theorem hasClass_addClass_ne (e : Elem) (c c' : String) (h : c' ≠ c) :
    (e.addClass c).hasClass c' = e.hasClass c' := by
  by_cases hm : c ∈ e.classes <;>
    simp [Elem.addClass, Elem.hasClass, hm, h]

theorem hasClass_removeClass_self (e : Elem) (c : String) :
    (e.removeClass c).hasClass c = false := by
  simp [Elem.removeClass, Elem.hasClass, List.mem_filter]

theorem hasClass_removeClass_ne (e : Elem) (c c' : String) (h : c' ≠ c) :
    (e.removeClass c).hasClass c' = e.hasClass c' := by
  simp [Elem.removeClass, Elem.hasClass, List.mem_filter, h]

theorem hasClass_toggleClass_self (e : Elem) (c : String) (b : Bool) :
    (e.toggleClass c b).hasClass c = b := by
  cases b <;>
    simp [Elem.toggleClass, hasClass_addClass_self, hasClass_removeClass_self]

theorem hasClass_toggleClass_ne (e : Elem) (c : String) (b : Bool)
    (c' : String) (h : c' ≠ c) :
    (e.toggleClass c b).hasClass c' = e.hasClass c' := by
  cases b <;>
    simp [Elem.toggleClass, hasClass_addClass_ne _ _ _ h,
      hasClass_removeClass_ne _ _ _ h]

theorem px_ne_empty (n : Int) : px n ≠ "" := by
  intro h
  have hlen := congrArg String.length h
  simp [px, String.length_append] at hlen
  exact absurd hlen.2 (by decide)

theorem tail_eq_nil_of_length_le_one {α : Type} {l : List α}
    (h : l.length ≤ 1) : l.tail = [] := by
  cases l with
  | nil => rfl
  | cons x xs =>
    simp only [List.length_cons, Nat.add_le_add_iff_right, Nat.le_zero,
      List.length_eq_zero] at h
    simpa using h

/-! Field-preservation lemmas for the widget of `src/assets/layout.js`. -/

namespace Layout

theorem applyMode_isMobile (m : Bool) (s : Widget) :
    (applyMode m s).isMobile = s.isMobile := by
  cases m <;> by_cases hs : s.opts.sidebar <;>
    simp [applyMode, _applyMobile, _applyDesktop, _applySidebar, hs]

theorem applyMode_isShown (m : Bool) (s : Widget) :
    (applyMode m s).isShown = s.isShown := by
  cases m <;> by_cases hs : s.opts.sidebar <;>
    simp [applyMode, _applyMobile, _applyDesktop, _applySidebar, hs]

theorem applyMode_opts (m : Bool) (s : Widget) :
    (applyMode m s).opts = s.opts := by
  cases m <;> by_cases hs : s.opts.sidebar <;>
    simp [applyMode, _applyMobile, _applyDesktop, _applySidebar, hs]

theorem resize_isMobile (w : Nat) (s : Widget) :
    (_resize w s).isMobile = some (decide (w < s.opts.breakpoint)) := by
  by_cases hc : s.isMobile = some (decide (w < s.opts.breakpoint)) <;>
    simp [_resize, hc, applyMode_isMobile]

theorem resize_opts (w : Nat) (s : Widget) :
    (_resize w s).opts = s.opts := by
  by_cases hc : s.isMobile = some (decide (w < s.opts.breakpoint)) <;>
    simp [_resize, hc, applyMode_opts]

theorem resize_isShown (w : Nat) (s : Widget) :
    (_resize w s).isShown = s.isShown := by
  by_cases hc : s.isMobile = some (decide (w < s.opts.breakpoint)) <;>
    simp [_resize, hc, applyMode_isShown]

theorem resize_noop (w : Nat) (s : Widget)
    (h : s.isMobile = some (decide (w < s.opts.breakpoint))) :
    _resize w s = s := by
  simp [_resize, h]

theorem resize_applied (w : Nat) (s : Widget)
    (h : s.isMobile ≠ some (decide (w < s.opts.breakpoint))) :
    _resize w s =
      applyMode (decide (w < s.opts.breakpoint))
        { s with isMobile := some (decide (w < s.opts.breakpoint)) } := by
  simp [_resize, h]

theorem open_isMobile (s : Widget) : (_open s).isMobile = s.isMobile := rfl

theorem close_isMobile (s : Widget) : (_close s).isMobile = s.isMobile := rfl

theorem onToggle_isMobile (s : Widget) :
    (_onToggle s).isMobile = s.isMobile := by
  by_cases h : truthy s.isShown <;> simp [_onToggle, h, open_isMobile,
    close_isMobile]

/-! Lemmas about the animation-frame debounce of `_onResize`. -/

theorem onResizeEv_resizeRuns (sys : Sys) :
    (onResizeEv sys).resizeRuns = sys.resizeRuns := by
  rcases haf : sys.widget.resizeAF with _ | fid <;> simp [onResizeEv, haf]

theorem onResizeEv_pendingFrame (sys : Sys) :
    (onResizeEv sys).pendingFrame = some sys.nextId := by
  rcases haf : sys.widget.resizeAF with _ | fid <;> simp [onResizeEv, haf]

theorem burst_resizeRuns (n : Nat) (sys : Sys) :
    (burst n sys).resizeRuns = sys.resizeRuns := by
  induction n with
  | zero => rfl
  | succ n ih => rw [burst, onResizeEv_resizeRuns, ih]

theorem fireFrame_of_pending (w : Nat) (sys : Sys) (fid : Nat)
    (h : sys.pendingFrame = some fid) :
    fireFrame w sys =
      { sys with
        pendingFrame := none
        widget := _resize w sys.widget
        resizeRuns := sys.resizeRuns + 1 } := by
  simp [fireFrame, h]

theorem fireFrame_of_none (w : Nat) (sys : Sys)
    (h : sys.pendingFrame = none) : fireFrame w sys = sys := by
  simp [fireFrame, h]

end Layout

namespace Part0

theorem resizeLayout_isMobile (w : Nat) (s : Widget) :
    (_resizeLayout w s).isMobile = some (decide (w < s.opts.breakpoint)) := by
  by_cases hc : s.isMobile = some (decide (w < s.opts.breakpoint))
  · simp [_resizeLayout, hc]
  · rcases hm : decide (w < s.opts.breakpoint) with _ | _
    · rw [hm] at hc
      simp [_resizeLayout, hm, hc, _applyDesktopLayout]
    · rw [hm] at hc
      simp [_resizeLayout, hm, hc, _applyMobileLayout]

end Part0

/-! Reachability invariant: in every reachable non-mobile state of the
`src/assets/layout.js` widget, both activation surfaces (the toggle button
and the overlay) are hidden by an inline `display: none`. -/

theorem truthy_eq_true_iff (ob : Option Bool) :
    truthy ob = true ↔ ob = some true := by
  rcases ob with _ | b
  · simp [truthy]
  · cases b <;> simp [truthy]

/-- The inductive invariant for C9: the mode is initialised, and a
non-mobile mode hides both click targets. -/
def navInactiveNonMobile (s : Layout.Widget) : Prop :=
  (∃ b, s.isMobile = some b)
  ∧ (s.isMobile = some false →
      s.navbtn.visible = false ∧ s.overlay.visible = false)

theorem inv_of_mobile {s : Layout.Widget} (h : s.isMobile = some true) :
    navInactiveNonMobile s := by
  refine ⟨⟨true, h⟩, fun hc => ?_⟩
  rw [h] at hc
  simp at hc

theorem applyNonMobile_hidden (s : Layout.Widget) :
    (Layout.applyMode false s).navbtn.visible = false
    ∧ (Layout.applyMode false s).overlay.visible = false := by
  by_cases hs : s.opts.sidebar <;>
    simp [Layout.applyMode, Layout._applySidebar, Layout._applyDesktop, hs,
      Elem.visible, getCss_setCss_self]

theorem resize_applied_inv (w : Nat) (s : Layout.Widget)
    (h : s.isMobile ≠ some (decide (w < s.opts.breakpoint))) :
    navInactiveNonMobile (Layout._resize w s) := by
  rw [Layout.resize_applied w s h]
  rcases hm : decide (w < s.opts.breakpoint) with _ | _
  · refine ⟨⟨false, by rw [Layout.applyMode_isMobile]⟩, fun _ => ?_⟩
    exact applyNonMobile_hidden _
  · exact inv_of_mobile (by rw [Layout.applyMode_isMobile])

theorem reach_inv (s : Layout.Widget) (h : Layout.Reach s) :
    navInactiveNonMobile s := by
  induction h with
  | init o w =>
      apply resize_applied_inv
      simp [Layout.fresh]
  | resize w hs ih =>
      rename_i s'
      by_cases hc : s'.isMobile = some (decide (w < s'.opts.breakpoint))
      · rw [Layout.resize_noop w s' hc]; exact ih
      · exact resize_applied_inv w s' hc
  | clickNavbtn hs hvis ih =>
      rename_i s'
      obtain ⟨⟨b, hb⟩, hhid⟩ := ih
      cases b
      · rw [(hhid hb).1] at hvis; exact absurd hvis (by simp)
      · exact inv_of_mobile (by rw [Layout.onToggle_isMobile]; exact hb)
  | clickOverlay hs hvis ih =>
      rename_i s'
      obtain ⟨⟨b, hb⟩, hhid⟩ := ih
      cases b
      · rw [(hhid hb).2] at hvis; exact absurd hvis (by simp)
      · exact inv_of_mobile (by rw [Layout.onToggle_isMobile]; exact hb)
  | openPub hs ih =>
      rename_i s'
      by_cases hg : truthy s'.isMobile && !truthy s'.isShown
      · have hm : s'.isMobile = some true :=
          (truthy_eq_true_iff _).mp (Bool.and_elim_left hg)
        have : Layout.openNav s' = Layout._open s' := by
          simp [Layout.openNav, hg]
        rw [this]
        exact inv_of_mobile (by rw [Layout.open_isMobile]; exact hm)
      · have : Layout.openNav s' = s' := by simp [Layout.openNav, hg]
        rw [this]; exact ih
  | closePub hs ih =>
      rename_i s'
      by_cases hg : truthy s'.isMobile && truthy s'.isShown
      · have hm : s'.isMobile = some true :=
          (truthy_eq_true_iff _).mp (Bool.and_elim_left hg)
        have : Layout.close s' = Layout._close s' := by
          simp [Layout.close, hg]
        rw [this]
        exact inv_of_mobile (by rw [Layout.close_isMobile]; exact hm)
      · have : Layout.close s' = s' := by simp [Layout.close, hg]
        rw [this]; exact ih

theorem getCss_animateLeft (e : Elem) (t : Int) (d : Nat) (ez : String) :
    (e.animate (.animateLeft t d ez)).getCss "left" = some (px t) := by
  simp [Elem.animate, Elem.getCss, Elem.animEffect, setStyle, px_ne_empty t,
    getStyle_putStyle_self]

theorem getCss_fadeOut (e : Elem) (d : Nat) (ez : String) :
    (e.animate (.fadeOut d ez)).getCss "display" = some "none" := by
  have h : ¬("none" : String) = "" := by decide
  simp [Elem.animate, Elem.getCss, Elem.animEffect, setStyle, h,
    getStyle_putStyle_self]

/-- C2: the layout evaluation `_resize` applies a mode unconditionally on its
first invocation (the stored mode starts as the `undefined` sentinel `none`,
which the strict comparison distinguishes from both booleans), and
thereafter a call with a viewport width on the same side of the breakpoint
returns the state unchanged — no DOM writes. -/
theorem layoutC2_first_pass_unconditional_then_idempotent
    (s : Layout.Widget) (w w' : Nat)
    (h1 : s.isMobile = none)
    (h2 : w' < s.opts.breakpoint ↔ w < s.opts.breakpoint) :
    Layout._resize w s
      = Layout.applyMode (decide (w < s.opts.breakpoint))
          { s with isMobile := some (decide (w < s.opts.breakpoint)) }
    ∧ Layout._resize w' (Layout._resize w s) = Layout._resize w s := by
  constructor
  · exact Layout.resize_applied w s (by rw [h1]; simp)
  · apply Layout.resize_noop
    rw [Layout.resize_isMobile, Layout.resize_opts]
    exact congrArg some (decide_eq_decide.mpr h2.symm)

/-- C2 witness: a fresh default widget, first pass at width 1000, second pass
at width 800 (same, mobile, side of the 1200 breakpoint). -/
theorem layoutC2_witness :
    (Layout.fresh Layout.defaultOptions).isMobile = none
    ∧ (800 < 1200 ↔ 1000 < 1200)
    ∧ (Layout._resize 1000 (Layout.fresh Layout.defaultOptions)
        = Layout.applyMode true
            { Layout.fresh Layout.defaultOptions with isMobile := some true }
      ∧ Layout._resize 800 (Layout._resize 1000 (Layout.fresh Layout.defaultOptions))
        = Layout._resize 1000 (Layout.fresh Layout.defaultOptions)) :=
  ⟨rfl, by decide,
   layoutC2_first_pass_unconditional_then_idempotent
     (Layout.fresh Layout.defaultOptions) 1000 800 rfl (by decide)⟩

/-- C3: in mobile mode, `open()` immediately followed by `close()` leaves the
final state Closed for every animation duration and easing: the open flag is
`false`, the panel's inline `left` ends at minus the configured width, the
overlay ends hidden, and — because each of `_open`/`_close` first `stop()`s
the in-flight animation on the panel and the overlay — the fx queues never
grow beyond a single entry. -/
theorem layoutC3_open_close_last_intent_wins (s : Layout.Widget)
    (h1 : truthy s.isMobile = true) (h2 : truthy s.isShown = false)
    (h3 : s.navbar.fx.length ≤ 1) (h4 : s.overlay.fx.length ≤ 1) :
    (Layout.close (Layout.openNav s)).isShown = some false
    ∧ (Layout.close (Layout.openNav s)).navbar.getCss "left"
        = some (px (-s.opts.width))
    ∧ (Layout.close (Layout.openNav s)).overlay.getCss "display" = some "none"
    ∧ (Layout.close (Layout.openNav s)).navbar.fx.length ≤ 1
    ∧ (Layout.close (Layout.openNav s)).overlay.fx.length ≤ 1 := by
  have hopen : Layout.openNav s = Layout._open s := by
    simp [Layout.openNav, h1, h2]
  have hclose : Layout.close (Layout._open s) = Layout._close (Layout._open s) := by
    have hm' : truthy (Layout._open s).isMobile = true := by
      rw [Layout.open_isMobile]; exact h1
    have hs' : truthy (Layout._open s).isShown = true := rfl
    simp [Layout.close, hm', hs']
  rw [hopen, hclose]
  have ht3 : s.navbar.fx.tail = [] := tail_eq_nil_of_length_le_one h3
  have ht4 : s.overlay.fx.tail = [] := tail_eq_nil_of_length_le_one h4
  refine ⟨rfl, getCss_animateLeft _ _ _ _, getCss_fadeOut _ _ _, ?_, ?_⟩
  · simp [Layout._close, Layout._open, Elem.animate, Elem.stop, ht3]
  · simp [Layout._close, Layout._open, Elem.animate, Elem.stop, ht4]

/-- C3 witness: a freshly created default widget at viewport width 1000 is in
mobile mode, closed, with empty fx queues. -/
theorem layoutC3_witness :
    truthy (Layout.createAt Layout.defaultOptions 1000).isMobile = true
    ∧ truthy (Layout.createAt Layout.defaultOptions 1000).isShown = false
    ∧ (Layout.createAt Layout.defaultOptions 1000).navbar.fx.length ≤ 1
    ∧ (Layout.createAt Layout.defaultOptions 1000).overlay.fx.length ≤ 1
    ∧ ((Layout.close (Layout.openNav (Layout.createAt Layout.defaultOptions 1000))).isShown
          = some false
      ∧ (Layout.close (Layout.openNav (Layout.createAt Layout.defaultOptions 1000))).navbar.getCss
          "left" = some (px (-300))
      ∧ (Layout.close (Layout.openNav (Layout.createAt Layout.defaultOptions 1000))).overlay.getCss
          "display" = some "none"
      ∧ (Layout.close (Layout.openNav (Layout.createAt Layout.defaultOptions 1000))).navbar.fx.length ≤ 1
      ∧ (Layout.close (Layout.openNav (Layout.createAt Layout.defaultOptions 1000))).overlay.fx.length ≤ 1) :=
  ⟨by decide, by decide, by decide, by decide,
   layoutC3_open_close_last_intent_wins (Layout.createAt Layout.defaultOptions 1000)
     (by decide) (by decide) (by decide) (by decide)⟩

/-- C4: the public `open()` returns the state completely unchanged unless the
widget is currently in mobile mode and closed, and the public `close()`
returns the state completely unchanged unless the widget is currently in
mobile mode and open. -/
theorem layoutC4_public_guards (s : Layout.Widget) :
    (truthy s.isMobile = false ∨ truthy s.isShown = true →
      Layout.openNav s = s)
    ∧ (truthy s.isMobile = false ∨ truthy s.isShown = false →
      Layout.close s = s) := by
  constructor
  · rintro (h | h) <;> simp [Layout.openNav, h]
  · rintro (h | h) <;> simp [Layout.close, h]

/-- C4 witness: on a default widget created at the non-mobile width 1300,
both `open()` and `close()` are no-ops. -/
theorem layoutC4_witness :
    truthy (Layout.createAt Layout.defaultOptions 1300).isMobile = false
    ∧ Layout.openNav (Layout.createAt Layout.defaultOptions 1300)
        = Layout.createAt Layout.defaultOptions 1300
    ∧ Layout.close (Layout.createAt Layout.defaultOptions 1300)
        = Layout.createAt Layout.defaultOptions 1300 :=
  ⟨by decide,
   (layoutC4_public_guards (Layout.createAt Layout.defaultOptions 1300)).1
     (Or.inl (by decide)),
   (layoutC4_public_guards (Layout.createAt Layout.defaultOptions 1300)).2
     (Or.inl (by decide))⟩

/-- C5: with the default breakpoint 1200 and width 300, resizing the viewport
from 1300 to 1000 with the navigation closed flips the mode to mobile, sets
the panel's inline offset to `-300px`, makes the toggle control visible (its
inline `display: none` from desktop mode is cleared), and hides the overlay —
in both variants (`part_000` with measured navbar width 300). -/
theorem layoutC5_cross_to_mobile :
    (Layout.createAt Layout.defaultOptions 1300).isMobile = some false
    ∧ (Layout.createAt Layout.defaultOptions 1300).navbtn.visible = false
    ∧ (Layout._resize 1000 (Layout.createAt Layout.defaultOptions 1300)).isMobile
        = some true
    ∧ (Layout._resize 1000 (Layout.createAt Layout.defaultOptions 1300)).navbar.getCss
        "left" = some "-300px"
    ∧ (Layout._resize 1000 (Layout.createAt Layout.defaultOptions 1300)).navbtn.visible
        = true
    ∧ (Layout._resize 1000 (Layout.createAt Layout.defaultOptions 1300)).overlay.getCss
        "display" = some "none"
    ∧ (Part0._resizeLayout 1000 (Part0.createAt Part0.defaultOptions 300 1300)).isMobile
        = some true
    ∧ (Part0._resizeLayout 1000 (Part0.createAt Part0.defaultOptions 300 1300)).navbar.getCss
        "left" = some "-300px"
    ∧ (Part0._resizeLayout 1000 (Part0.createAt Part0.defaultOptions 300 1300)).navbtn.visible
        = true
    ∧ (Part0._resizeLayout 1000 (Part0.createAt Part0.defaultOptions 300 1300)).overlay.getCss
        "display" = some "none" := by
  decide

/-- C6: with `sidebar := true` and a non-mobile viewport width 1400 (default
breakpoint 1200), the applied layout carries the sidebar presentation class
on the root (and neither of the other two, in the `layout.js` variant), fixes
the panel's inline width at the configured 300px, hides the toggle control,
and hides the overlay; in the `part_000` variant the root likewise carries
the sidebar class and toggle and overlay are hidden. -/
theorem layoutC6_sidebar_layout :
    (Layout.createAt { Layout.defaultOptions with sidebar := true } 1400).isMobile
        = some false
    ∧ (Layout.createAt { Layout.defaultOptions with sidebar := true } 1400).layout.hasClass
        "layout-sidebar" = true
    ∧ (Layout.createAt { Layout.defaultOptions with sidebar := true } 1400).layout.hasClass
        "layout-desktop" = false
    ∧ (Layout.createAt { Layout.defaultOptions with sidebar := true } 1400).layout.hasClass
        "layout-mobile" = false
    ∧ (Layout.createAt { Layout.defaultOptions with sidebar := true } 1400).navbar.getCss
        "width" = some "300px"
    ∧ (Layout.createAt { Layout.defaultOptions with sidebar := true } 1400).navbtn.visible
        = false
    ∧ (Layout.createAt { Layout.defaultOptions with sidebar := true } 1400).overlay.getCss
        "display" = some "none"
    ∧ (Part0.createAt { Part0.defaultOptions with sidebar := true } 300 1400).wrapper.hasClass
        "layout-sidebar" = true
    ∧ (Part0.createAt { Part0.defaultOptions with sidebar := true } 300 1400).navbtn.visible
        = false
    ∧ (Part0.createAt { Part0.defaultOptions with sidebar := true } 300 1400).overlay.visible
        = false := by
  decide

/-- C7: evaluation of `destroy()` at a failing input. A default widget created
at the mobile width 1000 has `left: -300px` set inline on the panel by
`_applyMobile`; after `destroy()` the presentation classes are gone and
`position`/`z-index`/`inset`/`width` are reset, but the inline `left` REMAINS
on the panel, and the `_on` event bindings are never detached (the `destroy`
override does not perform, nor delegate to, the base teardown) — contradicting
both the claim and the method's own documentation. -/
theorem layoutC7_destroy_residue :
    (Layout.destroy (Layout.createAt Layout.defaultOptions 1000)).navbar.getCss
        "left" = some "-300px"
    ∧ (Layout.destroy (Layout.createAt Layout.defaultOptions 1000)).bound = true
    ∧ (Layout.destroy (Layout.createAt Layout.defaultOptions 1000)).layout.hasClass
        "layout-mobile" = false
    ∧ (Layout.destroy (Layout.createAt Layout.defaultOptions 1000)).layout.hasClass
        "layout-desktop" = false
    ∧ (Layout.destroy (Layout.createAt Layout.defaultOptions 1000)).layout.hasClass
        "layout-sidebar" = false
    ∧ (Layout.destroy (Layout.createAt Layout.defaultOptions 1000)).navbtn.hasClass
        "active" = false
    ∧ (Layout.destroy (Layout.createAt Layout.defaultOptions 1000)).navbar.getCss
        "position" = none
    ∧ (Layout.destroy (Layout.createAt Layout.defaultOptions 1000)).navbar.getCss
        "z-index" = none
    ∧ (Layout.destroy (Layout.createAt Layout.defaultOptions 1000)).navbar.getCss
        "inset" = none
    ∧ (Layout.destroy (Layout.createAt Layout.defaultOptions 1000)).navbar.getCss
        "width" = none
    ∧ (Layout.destroy (Layout.createAt Layout.defaultOptions 1000)).overlay.css
        = [] := by
  decide

/-- C8: resize notifications are debounced to at most one layout
recomputation per rendered frame. A burst of `n + 1` notifications runs no
recomputation by itself; each notification cancels the previously scheduled
animation-frame callback and schedules a fresh one (the pending handle after
the burst is the one issued by the last notification); the next frame
boundary then runs exactly one recomputation, and a further frame boundary
with no new notification runs none. -/
theorem layoutC8_debounced_resize (sys : Layout.Sys) (w : Nat) (n : Nat) :
    (Layout.burst (n + 1) sys).resizeRuns = sys.resizeRuns
    ∧ (Layout.burst (n + 1) sys).pendingFrame
        = some (Layout.burst n sys).nextId
    ∧ (Layout.fireFrame w (Layout.burst (n + 1) sys)).resizeRuns
        = sys.resizeRuns + 1
    ∧ (Layout.fireFrame w (Layout.fireFrame w (Layout.burst (n + 1) sys))).resizeRuns
        = sys.resizeRuns + 1 := by
  have hp : (Layout.burst (n + 1) sys).pendingFrame
      = some (Layout.burst n sys).nextId :=
    Layout.onResizeEv_pendingFrame (Layout.burst n sys)
  have hruns : (Layout.burst (n + 1) sys).resizeRuns = sys.resizeRuns :=
    Layout.burst_resizeRuns (n + 1) sys
  have hfire := Layout.fireFrame_of_pending w (Layout.burst (n + 1) sys) _ hp
  refine ⟨hruns, hp, ?_, ?_⟩
  · rw [hfire]; simp [hruns]
  · rw [hfire, Layout.fireFrame_of_none _ _ rfl]; simp [hruns]

/-- C10: the open/closed flag is mutated only by the open and close
transitions — layout evaluation and all three mode applications preserve it —
and in the concrete round trip (default widget created at mobile width 1000,
opened, resized to 1300 and back to 1000 with no open/close call) the
reapplied mobile presentation shows the panel at inline offset `0` and the
overlay visible, restoring the remembered open state. -/
theorem layoutC10_open_flag_only_open_close (w : Nat) (s : Layout.Widget) :
    (Layout._resize w s).isShown = s.isShown
    ∧ (Layout._applyMobile s).isShown = s.isShown
    ∧ (Layout._applyDesktop s).isShown = s.isShown
    ∧ (Layout._applySidebar s).isShown = s.isShown
    ∧ (Layout._resize 1000 (Layout._resize 1300 (Layout.openNav
        (Layout.createAt Layout.defaultOptions 1000)))).isShown = some true
    ∧ (Layout._resize 1000 (Layout._resize 1300 (Layout.openNav
        (Layout.createAt Layout.defaultOptions 1000)))).navbar.getCss "left"
        = some "0"
    ∧ (Layout._resize 1000 (Layout._resize 1300 (Layout.openNav
        (Layout.createAt Layout.defaultOptions 1000)))).overlay.visible
        = true :=
  ⟨Layout.resize_isShown w s, rfl, rfl, rfl, by decide, by decide, by decide⟩

/-- C1 counterexample: the claim "after any mode application exactly one of
the three presentation classes {mobile, desktop, sidebar} is present on the
root" is false for the `part_000` variant: with `sidebar := true`, creating
the widget at the non-mobile width 1400 applies the desktop layout and
leaves TWO of the three classes (`layout-desktop` and `layout-sidebar`) on
the root. -/
theorem layoutC1_counterexample :
    classCount3
      (Part0.createAt { Part0.defaultOptions with sidebar := true } 300 1400).wrapper
      "layout-mobile" "layout-desktop" "layout-sidebar" = 2 := by
  decide

/-- C1 (amended): for every viewport width, after layout evaluation the
stored mode is mobile iff `width < breakpoint` (in both variants). In the
`layout.js` variant every mode application leaves exactly one of the three
presentation classes {mobile, desktop, sidebar} on the root; in the
`part_000` variant every mode application leaves exactly one of
{mobile, desktop} on the root and additionally has the sidebar class present
iff the `sidebar` option is set (the class names being pairwise distinct). -/
theorem layoutC1_mode_iff_and_presentation_classes
    (w : Nat) (s : Layout.Widget)
    (h1 : s.opts.classes.mobile ≠ s.opts.classes.desktop)
    (h2 : s.opts.classes.mobile ≠ s.opts.classes.sidebar)
    (h3 : s.opts.classes.desktop ≠ s.opts.classes.sidebar)
    (w0 : Nat) (s0 : Part0.Widget)
    (g1 : s0.opts.classes.layoutMobile ≠ s0.opts.classes.layoutDesktop)
    (g2 : s0.opts.classes.layoutMobile ≠ s0.opts.classes.layoutSidebar)
    (g3 : s0.opts.classes.layoutDesktop ≠ s0.opts.classes.layoutSidebar) :
    (Layout._resize w s).isMobile = some (decide (w < s.opts.breakpoint))
    ∧ classCount3 (Layout._applyMobile s).layout s.opts.classes.mobile
        s.opts.classes.desktop s.opts.classes.sidebar = 1
    ∧ classCount3 (Layout._applyDesktop s).layout s.opts.classes.mobile
        s.opts.classes.desktop s.opts.classes.sidebar = 1
    ∧ classCount3 (Layout._applySidebar s).layout s.opts.classes.mobile
        s.opts.classes.desktop s.opts.classes.sidebar = 1
    ∧ (Part0._resizeLayout w0 s0).isMobile
        = some (decide (w0 < s0.opts.breakpoint))
    ∧ classCount2 (Part0._applyMobileLayout s0).wrapper
        s0.opts.classes.layoutMobile s0.opts.classes.layoutDesktop = 1
    ∧ (Part0._applyMobileLayout s0).wrapper.hasClass
        s0.opts.classes.layoutSidebar = s0.opts.sidebar
    ∧ classCount2 (Part0._applyDesktopLayout s0).wrapper
        s0.opts.classes.layoutMobile s0.opts.classes.layoutDesktop = 1
    ∧ (Part0._applyDesktopLayout s0).wrapper.hasClass
        s0.opts.classes.layoutSidebar = s0.opts.sidebar := by
  refine ⟨Layout.resize_isMobile w s, ?_, ?_, ?_,
    Part0.resizeLayout_isMobile w0 s0, ?_, ?_, ?_, ?_⟩
  · have hM : (Layout._applyMobile s).layout.hasClass s.opts.classes.mobile
        = true := by
      show (((s.layout.addClass _).removeClass _).removeClass _).hasClass _ = true
      rw [hasClass_removeClass_ne _ _ _ h2, hasClass_removeClass_ne _ _ _ h1,
        hasClass_addClass_self]
    have hD : (Layout._applyMobile s).layout.hasClass s.opts.classes.desktop
        = false := by
      show (((s.layout.addClass _).removeClass _).removeClass _).hasClass _ = false
      rw [hasClass_removeClass_ne _ _ _ h3, hasClass_removeClass_self]
    have hS : (Layout._applyMobile s).layout.hasClass s.opts.classes.sidebar
        = false := hasClass_removeClass_self _ _
    simp [classCount3, oneHot, hM, hD, hS]
  · have hD : (Layout._applyDesktop s).layout.hasClass s.opts.classes.desktop
        = true := by
      show (((s.layout.addClass _).removeClass _).removeClass _).hasClass _ = true
      rw [hasClass_removeClass_ne _ _ _ h3, hasClass_removeClass_ne _ _ _ h1.symm,
        hasClass_addClass_self]
    have hM : (Layout._applyDesktop s).layout.hasClass s.opts.classes.mobile
        = false := by
      show (((s.layout.addClass _).removeClass _).removeClass _).hasClass _ = false
      rw [hasClass_removeClass_ne _ _ _ h2, hasClass_removeClass_self]
    have hS : (Layout._applyDesktop s).layout.hasClass s.opts.classes.sidebar
        = false := hasClass_removeClass_self _ _
    simp [classCount3, oneHot, hM, hD, hS]
  · have hS : (Layout._applySidebar s).layout.hasClass s.opts.classes.sidebar
        = true := by
      show (((s.layout.addClass _).removeClass _).removeClass _).hasClass _ = true
      rw [hasClass_removeClass_ne _ _ _ h2.symm, hasClass_removeClass_ne _ _ _ h3.symm,
        hasClass_addClass_self]
    have hD : (Layout._applySidebar s).layout.hasClass s.opts.classes.desktop
        = false := by
      show (((s.layout.addClass _).removeClass _).removeClass _).hasClass _ = false
      rw [hasClass_removeClass_ne _ _ _ h1.symm, hasClass_removeClass_self]
    have hM : (Layout._applySidebar s).layout.hasClass s.opts.classes.mobile
        = false := hasClass_removeClass_self _ _
    simp [classCount3, oneHot, hM, hD, hS]
  · have hM : (Part0._applyMobileLayout s0).wrapper.hasClass
        s0.opts.classes.layoutMobile = true := by
      show (((s0.wrapper.addClass _).removeClass _).toggleClass _ _).hasClass _ = true
      rw [hasClass_toggleClass_ne _ _ _ _ g2, hasClass_removeClass_ne _ _ _ g1,
        hasClass_addClass_self]
    have hD : (Part0._applyMobileLayout s0).wrapper.hasClass
        s0.opts.classes.layoutDesktop = false := by
      show (((s0.wrapper.addClass _).removeClass _).toggleClass _ _).hasClass _ = false
      rw [hasClass_toggleClass_ne _ _ _ _ g3, hasClass_removeClass_self]
    simp [classCount2, oneHot, hM, hD]
  · exact hasClass_toggleClass_self _ _ _
  · have hD : (Part0._applyDesktopLayout s0).wrapper.hasClass
        s0.opts.classes.layoutDesktop = true := by
      show (((s0.wrapper.addClass _).removeClass _).toggleClass _ _).hasClass _ = true
      rw [hasClass_toggleClass_ne _ _ _ _ g3, hasClass_removeClass_ne _ _ _ g1.symm,
        hasClass_addClass_self]
    have hM : (Part0._applyDesktopLayout s0).wrapper.hasClass
        s0.opts.classes.layoutMobile = false := by
      show (((s0.wrapper.addClass _).removeClass _).toggleClass _ _).hasClass _ = false
      rw [hasClass_toggleClass_ne _ _ _ _ g2, hasClass_removeClass_self]
    simp [classCount2, oneHot, hM, hD]
  · exact hasClass_toggleClass_self _ _ _

/-- C1 witness: the amended statement at width 1000, a fresh default widget of
each variant, and the pairwise-distinct default class names. -/
theorem layoutC1_witness :
    ("layout-mobile" : String) ≠ "layout-desktop"
    ∧ ("layout-mobile" : String) ≠ "layout-sidebar"
    ∧ ("layout-desktop" : String) ≠ "layout-sidebar"
    ∧ ((Layout._resize 1000 (Layout.fresh Layout.defaultOptions)).isMobile
          = some true
      ∧ classCount3 (Layout._applyMobile (Layout.fresh Layout.defaultOptions)).layout
          "layout-mobile" "layout-desktop" "layout-sidebar" = 1
      ∧ classCount3 (Layout._applyDesktop (Layout.fresh Layout.defaultOptions)).layout
          "layout-mobile" "layout-desktop" "layout-sidebar" = 1
      ∧ classCount3 (Layout._applySidebar (Layout.fresh Layout.defaultOptions)).layout
          "layout-mobile" "layout-desktop" "layout-sidebar" = 1
      ∧ (Part0._resizeLayout 1000 { opts := Part0.defaultOptions }).isMobile
          = some true
      ∧ classCount2 (Part0._applyMobileLayout { opts := Part0.defaultOptions }).wrapper
          "layout-mobile" "layout-desktop" = 1
      ∧ (Part0._applyMobileLayout { opts := Part0.defaultOptions }).wrapper.hasClass
          "layout-sidebar" = false
      ∧ classCount2 (Part0._applyDesktopLayout { opts := Part0.defaultOptions }).wrapper
          "layout-mobile" "layout-desktop" = 1
      ∧ (Part0._applyDesktopLayout { opts := Part0.defaultOptions }).wrapper.hasClass
          "layout-sidebar" = false) :=
  ⟨by decide, by decide, by decide,
   layoutC1_mode_iff_and_presentation_classes 1000
     (Layout.fresh Layout.defaultOptions) (by decide) (by decide) (by decide)
     1000 { opts := Part0.defaultOptions } (by decide) (by decide) (by decide)⟩

/-- C9 counterexample: the claim "for every state reachable while the
controller is in non-mobile mode, activating the toggle control or the
overlay leaves the open/closed state and the presentation unchanged" is false
at the level of the bound handler: `_onToggle` has no mode guard, so invoking
it (e.g. via a programmatic `trigger`) on the reachable non-mobile state
created at width 1300 flips the open flag to `true` and marks the toggle
control active. -/
theorem layoutC9_counterexample :
    truthy (Layout.createAt Layout.defaultOptions 1300).isMobile = false
    ∧ (Layout.createAt Layout.defaultOptions 1300).isShown = none
    ∧ (Layout._onToggle (Layout.createAt Layout.defaultOptions 1300)).isShown
        = some true
    ∧ (Layout._onToggle (Layout.createAt Layout.defaultOptions 1300)).navbtn.hasClass
        "active" = true := by
  decide

/-- C9 (amended): open/close transitions can be triggered through the UI only
while in mobile mode — in every state reachable through the widget's event
surface (creation, debounced resizes, clicks deliverable only to elements not
hidden by `display: none`, public open/close) in which the controller is in
non-mobile mode, both the toggle control and the overlay carry an inline
`display: none`, so neither can be activated by user interaction; the
`_onToggle` handler itself, however, performs a transition regardless of mode
if invoked directly. -/
theorem layoutC9_nonmobile_click_surfaces_hidden (s : Layout.Widget)
    (h : Layout.Reach s) (hm : truthy s.isMobile = false) :
    s.navbtn.visible = false ∧ s.overlay.visible = false := by
  obtain ⟨⟨b, hb⟩, hhid⟩ := reach_inv s h
  cases b
  · exact hhid hb
  · rw [hb] at hm
    exact absurd hm (by simp [truthy])

/-- C9 witness: the reachable default widget created at the non-mobile width
1300 has both click surfaces hidden. -/
theorem layoutC9_witness :
    truthy (Layout.createAt Layout.defaultOptions 1300).isMobile = false
    ∧ ((Layout.createAt Layout.defaultOptions 1300).navbtn.visible = false
      ∧ (Layout.createAt Layout.defaultOptions 1300).overlay.visible = false) :=
  ⟨by decide,
   layoutC9_nonmobile_click_surfaces_hidden
     (Layout.createAt Layout.defaultOptions 1300)
     (Layout.Reach.init Layout.defaultOptions 1300) (by decide)⟩
